import Mathlib

/-!
Shallow embedding of `src/linak_controller/main.py` (linak-controller).

The module orchestrates a Bluetooth desk controller: connection lifecycle
(`connect`, `disconnect`, `disconnect_callback`), command execution
(`run_command`), two forwarding servers (`run_tcp_forwarded_command`,
`run_forwarded_command`), a forwarding client (`forward_command`), device
scanning (`scan`) and the session supervisor (`manage`).

Python's async effects are modelled by explicit state passing plus an
event trace (`Event`): every print, device-collaborator call, transport
call and scheduled task becomes one trace element.  The external
collaborators (`Desk`, `bleak`, `config.py`, `util.py`) are not under
`src/`; where their behaviour decides a claim they are modelled from the
spec, and the doc comment of the definition says so.
-/

namespace LinakController

/-- The closed command variant set from `config.Commands` (the `config`
module is not under `src/`; the members are exactly the ones `main.py`
references: `move_to`, `watch`, `scan_adapter`, `server`, `tcp_server`;
the "none/status" command is Python `None`, modelled as `Option.none`). -/
inductive Commands where
  | move_to
  | watch
  | scan_adapter
  | server
  | tcp_server
  deriving DecidableEq, Repr

/-- Modelled from the spec: the Configuration log sink, "a function
accepting a message and an optional line terminator".  The sink is either
the one installed at startup (`initial`) or the print-and-forward sink a
message-bridge request installs (`wsForwarding`, tagged by the websocket
session it forwards to).  Sinks are compared as values, which is what
identity of the installed function means in the embedding. -/
inductive LogSink where
  | initial
  | wsForwarding (wsId : Nat)
  deriving DecidableEq, Repr

/-- A dynamically-typed Python value as it can appear in a JSON command
descriptor or in a Configuration field that descriptors may overwrite. -/
inductive Value where
  | vStr (s : String)
  | vInt (n : Int)
  | vBool (b : Bool)
  | vCmd (c : Option Commands)
  | vNull
  deriving DecidableEq, Repr

/-- Modelled from the spec: the `Height` value type from `util.py` (not
under `src/`): "a raw device-resolution integer and a derived human unit
(millimetres)".  The spec's round-trip law makes the human conversion
exact, so the embedding stores the single integer; none of the verified
properties depend on the unit conversion, only on equality of `value`,
which is exactly what `main.py` compares. -/
structure Height where
  value : Int
  deriving DecidableEq, Repr

/-- Modelled from the spec: the `Height(value, human)` constructor from
`util.py`.  The `human` flag records how the raw input is interpreted;
with the exact round-trip law the stored integer is the given one. -/
def Height.make (value : Int) (_human : Bool) : Height :=
  { value := value }

/-- Modelled from the spec: `Height.human`, the derived human-unit
(millimetre) reading; exact per the round-trip law. -/
def Height.human (h : Height) : Int :=
  h.value

/-- The process-wide mutable `config` object: exactly the fields `main.py`
reads or writes.  `favourites` is the name-to-height mapping, `log` the
replaceable sink, `disconnecting` the intentional-disconnect flag. -/
structure Config where
  command : Option Commands
  move_to : Value
  quiet : Bool
  mac_address : String
  adapter_name : String
  scan_timeout : Int
  connection_timeout : Int
  server_address : String
  server_port : Int
  forward : Bool
  forever : Bool
  favourites : List (String × Int)
  disconnecting : Bool
  log : LogSink
  deriving DecidableEq, Repr

/-- Coerce a descriptor value to a Bool field, keeping the old value when
the shapes do not match (the verified properties only exercise
well-shaped assignments). -/
def asBool (v : Value) (old : Bool) : Bool :=
  match v with
  | .vBool b => b
  | _ => old

/-- Coerce a descriptor value to a String field. -/
def asStr (v : Value) (old : String) : String :=
  match v with
  | .vStr s => s
  | _ => old

/-- Coerce a descriptor value to an Int field. -/
def asInt (v : Value) (old : Int) : Int :=
  match v with
  | .vInt n => n
  | _ => old

/-- Parse a command name as it appears after a JSON round trip. -/
def commandOfString (s : String) : Option Commands :=
  if s = "move_to" then some .move_to
  else if s = "watch" then some .watch
  else if s = "scan_adapter" then some .scan_adapter
  else if s = "server" then some .server
  else if s = "tcp_server" then some .tcp_server
  else none

/-- Coerce a descriptor value to the command field. -/
def asCommand (v : Value) (old : Option Commands) : Option Commands :=
  match v with
  | .vCmd c => c
  | .vStr s => commandOfString s
  | .vNull => none
  | _ => old

/-- The Configuration attribute a descriptor key names.  `fOther` covers
keys naming no data field of the embedding: Python would create a fresh
attribute (or, for the key "log", clobber the sink with a non-function);
neither is a Configuration data field of the model. -/
inductive CfgField where
  | fCommand
  | fMoveTo
  | fQuiet
  | fMacAddress
  | fAdapterName
  | fScanTimeout
  | fConnectionTimeout
  | fServerAddress
  | fServerPort
  | fForward
  | fForever
  | fDisconnecting
  | fOther
  deriving DecidableEq, Repr

/-- Resolve a descriptor key to the Configuration attribute it names. -/
def fieldOfKey (k : String) : CfgField :=
  if k = "command" then .fCommand
  else if k = "move_to" then .fMoveTo
  else if k = "quiet" then .fQuiet
  else if k = "mac_address" then .fMacAddress
  else if k = "adapter_name" then .fAdapterName
  else if k = "scan_timeout" then .fScanTimeout
  else if k = "connection_timeout" then .fConnectionTimeout
  else if k = "server_address" then .fServerAddress
  else if k = "server_port" then .fServerPort
  else if k = "forward" then .fForward
  else if k = "forever" then .fForever
  else if k = "disconnecting" then .fDisconnecting
  else .fOther

/-- `setattr(config, key, value)` as `main.py`'s forwarding servers use
it: every named Configuration attribute can be overwritten, not only the
allow-listed ones. -/
def setattrC (cfg : Config) (key : String) (v : Value) : Config :=
  match fieldOfKey key with
  | .fCommand => { cfg with command := asCommand v cfg.command }
  | .fMoveTo => { cfg with move_to := v }
  | .fQuiet => { cfg with quiet := asBool v cfg.quiet }
  | .fMacAddress => { cfg with mac_address := asStr v cfg.mac_address }
  | .fAdapterName => { cfg with adapter_name := asStr v cfg.adapter_name }
  | .fScanTimeout => { cfg with scan_timeout := asInt v cfg.scan_timeout }
  | .fConnectionTimeout => { cfg with connection_timeout := asInt v cfg.connection_timeout }
  | .fServerAddress => { cfg with server_address := asStr v cfg.server_address }
  | .fServerPort => { cfg with server_port := asInt v cfg.server_port }
  | .fForward => { cfg with forward := asBool v cfg.forward }
  | .fForever => { cfg with forever := asBool v cfg.forever }
  | .fDisconnecting => { cfg with disconnecting := asBool v cfg.disconnecting }
  | .fOther => cfg

/-- A parsed JSON command descriptor: a string-keyed mapping. -/
abbrev Descriptor : Type := List (String × Value)

/-- The `for key in forwarded_config: setattr(config, key, ...)` loop
shared by both forwarding servers (`main.py` lines 113-114 and 146-147). -/
def applyForwardedConfig (d : Descriptor) (cfg : Config) : Config :=
  d.foldl (fun c kv => setattrC c kv.1 kv.2) cfg

/-- One observable step of the program: a print, a log-sink forward, a
device-collaborator call, a transport call, or a scheduled task. -/
inductive Event where
  | printed (s : String)
  | wsSendText (wsId : Nat) (s : String)
  | deskGetHeightSpeed
  | deskLogState (h : Height)
  | deskWatch
  | deskMoveTo (t : Height)
  | deskStop
  | deskInitialise
  | transportConnect
  | setDisconnecting
  | disconnectCall
  | transportDisconnect
  | scheduleReconnect
  | wsConnect
  | wsSend (d : List (String × Value))
  | wsClose
  | tcpClose
  | sleepOne
  deriving DecidableEq, Repr

/-- Modelled from the spec: emitting one message through the installed
log sink (`config.info` / `config.warn` / `config.error` in `config.py`,
not under `src/`, route their message through `config.log`).  The
startup sink prints; the message-bridge sink both prints and forwards
the message as a text frame. -/
def emit (sink : LogSink) (msg : String) : List Event :=
  match sink with
  | .initial => [.printed msg]
  | .wsForwarding i => [.printed msg, .wsSendText i msg]

/-- Python `str()` of the values a `move_to` field can hold. -/
def strOfValue (v : Value) : String :=
  match v with
  | .vStr s => s
  | .vInt n => toString n
  | .vBool b => if b then "True" else "False"
  | .vCmd _ => "Commands"
  | .vNull => "None"

/-- Python `str.isnumeric` restricted to ASCII digits, which is what the
verified properties exercise. -/
def isnumeric (s : String) : Bool :=
  decide (s.length ≠ 0) && s.toList.all Char.isDigit

/-- Python `int()` on a numeric string. -/
def strToInt (s : String) : Int :=
  (s.toNat?.getD 0 : Int)

/-- `config.move_to in config.favourites` followed by
`config.favourites.get(config.move_to)`: a dictionary lookup keyed by the
raw `move_to` value (only string keys can match the favourites table). -/
def favGet (favs : List (String × Int)) (k : Value) : Option Int :=
  match k with
  | .vStr s => (favs.find? (fun p => p.1 = s)).map (fun p => p.2)
  | _ => none

/-- The target resolution of the `move_to` branch of `run_command`, as a
standalone function: favourite name first, then numeric literal, else
unresolvable. -/
def resolveTarget (cfg : Config) : Option Height :=
  match favGet cfg.favourites cfg.move_to with
  | some v => some (Height.make v true)
  | none =>
      if isnumeric (strOfValue cfg.move_to) then
        some (Height.make (strToInt (strOfValue cfg.move_to)) true)
      else
        none

/-- What the device collaborator reports during one `run_command`: the
height+speed read at entry and the height+speed read after a move. -/
structure DeskEnv where
  initial : Height × Int
  final : Height × Int
  deriving DecidableEq, Repr

/-- `run_command` (`main.py` lines 59-93) as a trace function.  It reads
and logs the current height, then branches on `config.command`: `watch`
subscribes to the update stream; `move_to` resolves the target (favourite
name, then numeric literal, else a logged error and return), returns with
a warning when the target equals the just-read height, otherwise moves
and re-reads; any other command stops after the initial read. -/
def run_command (cfg : Config) (env : DeskEnv) : List Event :=
  let initial_height := env.initial.1
  let base : List Event := [.deskGetHeightSpeed, .deskLogState initial_height]
  match cfg.command with
  | some .watch =>
      base ++ emit cfg.log "Watching for changes to desk height and speed" ++ [.deskWatch]
  | some .move_to =>
      let afterResolve (target : Height) (resolveMsg : String) : List Event :=
        base ++ emit cfg.log resolveMsg ++
          (if target.value = initial_height.value then
            emit cfg.log "Nothing to do - already at specified height"
          else
            [.deskMoveTo target, .deskGetHeightSpeed] ++
              emit cfg.log ("Final height: " ++ toString (env.final.1.human) ++
                "mm (Target: " ++ toString target.human ++ "mm)"))
      match favGet cfg.favourites cfg.move_to with
      | some favv =>
          afterResolve (Height.make favv true)
            ("Moving to favourite height: " ++ strOfValue cfg.move_to ++
              " (" ++ toString (Height.make favv true).human ++ " mm)")
      | none =>
          if isnumeric (strOfValue cfg.move_to) then
            afterResolve (Height.make (strToInt (strOfValue cfg.move_to)) true)
              ("Moving to height: " ++ strOfValue cfg.move_to)
          else
            base ++ emit cfg.log
              ("Not a valid height or favourite position: " ++ strOfValue cfg.move_to)
  | _ => base

/-- A `BleakClient` handle as `main.py` sees it: the bound device address
and its reported connectivity. -/
structure Client where
  address : String
  is_connected : Bool
  deriving DecidableEq, Repr

/-- `disconnect_callback` (`main.py` lines 29-32): invoked by the
transport on a link drop.  When the disconnecting flag is not set it
prints the loss and schedules exactly one reconnect task; when the flag
is set it does nothing. -/
def disconnect_callback (cfg : Config) (client : Client) : List Event :=
  if cfg.disconnecting then []
  else
    [.printed ("Lost connection with " ++ client.address), .scheduleReconnect]

/-- `connect` (`main.py` lines 35-49): builds a client bound to the
configured address when none is supplied, issues the transport connect,
then the device initialisation handshake.  It reads but never writes the
Configuration, returning it unchanged. -/
def connect (cfg : Config) (clientOpt : Option Client) : Config × Client × List Event :=
  let client := clientOpt.getD { address := cfg.mac_address, is_connected := false }
  (cfg, { client with is_connected := true },
    [.printed "Connecting\r", .transportConnect,
     .printed ("Connected " ++ cfg.mac_address), .deskInitialise])

/-- `disconnect` (`main.py` lines 52-56): a no-op on a client that
reports itself disconnected; otherwise it sets the disconnecting flag on
the Configuration and only then requests the transport-level
disconnect. -/
def disconnect (cfg : Config) (client : Client) : Config × Client × List Event :=
  if client.is_connected then
    ({ cfg with disconnecting := true }, { client with is_connected := false },
      [.setDisconnecting, .transportDisconnect])
  else
    (cfg, client, [])

/-- A device as the scanner reports it. -/
structure BleDevice where
  address : String
  name : String
  deriving DecidableEq, Repr

/-- Python `print(device)` on a discovered device. -/
def deviceStr (d : BleDevice) : String :=
  d.address ++ ": " ++ d.name

/-- `scan` (`main.py` lines 17-26) with the scanner's discovery result as
input: prints the count, prints every discovered device, and returns the
full discovery list.  No address filtering occurs anywhere in the body. -/
def scan (cfg : Config) (discovered : List BleDevice) : List BleDevice × List Event :=
  (discovered,
    [.printed "Scanning\r",
     .printed ("Found " ++ toString discovered.length ++ " devices using " ++ cfg.adapter_name)]
      ++ discovered.map (fun d => .printed (deviceStr d)))

/-- `run_tcp_forwarded_command` (`main.py` lines 108-116): reads the
whole inbound stream as one JSON descriptor, applies every key of it
onto the shared Configuration via `setattr`, runs the command, closes
the connection.  No log-sink replacement and no reply to the caller. -/
def run_tcp_forwarded_command (cfg : Config) (env : DeskEnv) (request : Descriptor) :
    Config × List Event :=
  let cfg2 := applyForwardedConfig request cfg
  (cfg2, [.printed "Received command"] ++ run_command cfg2 env ++ [.tcpClose])

/-- One inbound message-bridge request: the websocket session identity
and the text frames the caller sends (each a parsed JSON descriptor). -/
structure WsRequest where
  wsId : Nat
  messages : List Descriptor
  deriving DecidableEq, Repr

/-- `run_forwarded_command` (`main.py` lines 131-152): installs the
print-and-forward log sink on the Configuration, then handles at most
the first text frame: applies every key of its descriptor onto the
Configuration via `setattr` and runs the command; afterwards sleeps one
time unit and closes the session.  The previously installed sink is
never saved or restored. -/
def run_forwarded_command (cfg : Config) (env : DeskEnv) (req : WsRequest) :
    Config × List Event :=
  let cfg1 := { cfg with log := LogSink.wsForwarding req.wsId }
  match req.messages with
  | [] => (cfg1, [.printed "Received command", .sleepOne, .wsClose])
  | d :: _ =>
      let cfg2 := applyForwardedConfig d cfg1
      (cfg2,
        [.printed "Received command"] ++ run_command cfg2 env ++ [.sleepOne, .wsClose])

/-- `ALLOWED_KEYS` (`main.py` line 14). -/
def ALLOWED_KEYS : List String := ["command", "move_to", "quiet"]

/-- `ALLOWED_COMMANDS` (`main.py` line 15). -/
def ALLOWED_COMMANDS : List (Option Commands) := [none, some .move_to, some .watch]

/-- `config.__dict__` (`main.py` line 161): the Configuration's
attribute dictionary. -/
def configDict (cfg : Config) : List (String × Value) :=
  [("command", .vCmd cfg.command),
   ("move_to", cfg.move_to),
   ("quiet", .vBool cfg.quiet),
   ("mac_address", .vStr cfg.mac_address),
   ("adapter_name", .vStr cfg.adapter_name),
   ("scan_timeout", .vInt cfg.scan_timeout),
   ("connection_timeout", .vInt cfg.connection_timeout),
   ("server_address", .vStr cfg.server_address),
   ("server_port", .vInt cfg.server_port),
   ("forward", .vBool cfg.forward),
   ("forever", .vBool cfg.forever),
   ("disconnecting", .vBool cfg.disconnecting)]

/-- The dict comprehension of `main.py` lines 163-165: restrict the
attribute dictionary to the allow-listed keys that are present. -/
def restrictToAllowed (d : List (String × Value)) : List (String × Value) :=
  ALLOWED_KEYS.filterMap (fun k => (d.find? (fun p => p.1 = k)).map (fun p => (k, p.2)))

/-- `forward_command` (`main.py` lines 155-178) with the text frames the
server sends back as input: refuses locally (one print, nothing else)
when the selected command is outside `ALLOWED_COMMANDS`; otherwise
builds the allow-listed descriptor, opens the websocket session, sends
the descriptor, prints every received text frame until the remote side
closes or errors, then closes. -/
def forward_command (cfg : Config) (incoming : List String) : List Event :=
  if cfg.command ∈ ALLOWED_COMMANDS then
    [.wsConnect, .wsSend (restrictToAllowed (configDict cfg))]
      ++ incoming.map (fun s => .printed s) ++ [.wsClose]
  else
    [.printed "Command must be one of [None, Commands.move_to, Commands.watch]"]

/-- How one `connect()` call in `manage` resolves: success, a
`BleakError` carrying a message, or a connect timeout. -/
inductive ConnectOutcome where
  | ok
  | bleakError (msg : String)
  | timeout
  deriving DecidableEq, Repr

/-- Whether a collaborator failure interrupts the body of `manage`'s
`try` block, and with what partial trace it had produced by then:
`completes` means no collaborator raised; `osError`/`exn` are an
`OSError` and any other uncaught exception.  The two server commands
never return normally in the source (`serve_forever`, `await Future`),
so for them only the failure outcomes correspond to a real run. -/
inductive PhaseOutcome where
  | completes
  | osError (partTrace : List Event) (msg : String)
  | exn (partTrace : List Event) (msg : String)
  deriving DecidableEq, Repr

/-- Everything the environment decides during one `manage` session. -/
structure ManageEnv where
  connectRes : ConnectOutcome
  phase : PhaseOutcome
  desk : DeskEnv
  devices : List BleDevice
  incoming : List String
  clientConnectedAtCleanup : Bool
  deriving Repr

/-- Python `traceback.format_exc()` on an exception message. -/
def format_exc (msg : String) : String :=
  "Traceback (most recent call last):\n" ++ msg

/-- Python `"was not found" in str(e)`. -/
def wasNotFound (msg : String) : Bool :=
  decide (List.IsInfix ("was not found".toList) msg.toList)

/-- The `finally` block of `manage` (`main.py` lines 220-225) once a
Connection object exists: print, device stop, the
`disconnect` call (whose own trace follows the call marker). -/
def cleanupTrace (cfg : Config) (client : Client) : List Event :=
  [.printed "\rDisconnecting\r", .deskStop, .disconnectCall]
    ++ (disconnect cfg client).2.2 ++ [.printed "Disconnected         "]

/-- The trace the body of the post-connect dispatch produces when no
collaborator raises: local commands run `run_command`; the two server
commands only print their startup line in the source before blocking
forever, so `completes` is vacuous for them. -/
def dispatchTrace (cfg : Config) (env : ManageEnv) : List Event :=
  if cfg.command = some .server then [.printed "Server listening"]
  else if cfg.command = some .tcp_server then [.printed "TCP Server listening"]
  else run_command cfg env.desk

/-- `manage` (`main.py` lines 181-225) as exit-code plus trace:
`forward` first, then `scan_adapter`, both without a connection; any
other command connects (with `BleakError` and timeout mapped to exit 1
and no cleanup, since the client variable stays unset), dispatches, and
always runs the cleanup block once the connect returned; an `OSError`
or any other uncaught exception maps to exit 1 after its handler's
prints, with cleanup still appended. -/
def manage (cfg : Config) (env : ManageEnv) : Int × List Event :=
  if cfg.forward then
    match env.phase with
    | .completes => (0, forward_command cfg env.incoming)
    | .osError part m => (1, part ++ [.printed m])
    | .exn part m =>
        (1, part ++ [.printed "\nSomething unexpected went wrong:", .printed (format_exc m)])
  else if cfg.command = some .scan_adapter then
    match env.phase with
    | .completes => (0, (scan cfg env.devices).2)
    | .osError part m => (1, part ++ [.printed m])
    | .exn part m =>
        (1, part ++ [.printed "\nSomething unexpected went wrong:", .printed (format_exc m)])
  else
    match env.connectRes with
    | .bleakError m =>
        (1, [.printed "Connecting\r", .printed "Connecting failed"]
          ++ (if wasNotFound m then [.printed m] else [.printed (format_exc m)]))
    | .timeout => (1, [.printed "Connecting\r", .printed "Connecting failed - timed out"])
    | .ok =>
        let (cfgC, client0, connectT) := connect cfg none
        let client := { client0 with is_connected := env.clientConnectedAtCleanup }
        match env.phase with
        | .completes =>
            (0, connectT ++ dispatchTrace cfgC env ++ cleanupTrace cfgC client)
        | .osError part m =>
            (1, connectT ++ part ++ [.printed m] ++ cleanupTrace cfgC client)
        | .exn part m =>
            (1, connectT ++ part
              ++ [.printed "\nSomething unexpected went wrong:", .printed (format_exc m)]
              ++ cleanupTrace cfgC client)

/-! Concrete fixtures for the closed witness and counterexample theorems. -/

/-- A concrete startup Configuration. -/
def cfg0 : Config :=
  { command := none
    move_to := .vNull
    quiet := false
    mac_address := "AA:BB:CC:DD:EE:FF"
    adapter_name := "hci0"
    scan_timeout := 5
    connection_timeout := 10
    server_address := "127.0.0.1"
    server_port := 9123
    forward := false
    forever := false
    favourites := [("standing", 1100)]
    disconnecting := false
    log := .initial }

/-- A concrete device environment: desk at 750, final read 1100. -/
def deskEnv0 : DeskEnv :=
  { initial := ({ value := 750 }, 0), final := ({ value := 1100 }, 0) }

/-- A concrete session environment: connect succeeds, nothing raises. -/
def env0 : ManageEnv :=
  { connectRes := .ok
    phase := .completes
    desk := deskEnv0
    devices := []
    incoming := []
    clientConnectedAtCleanup := true }

/-- Recognizer for device-write events. -/
def isDeskMoveTo (e : Event) : Bool :=
  match e with
  | .deskMoveTo _ => true
  | _ => false

/-- Recognizer for the watch-subscription event. -/
def isDeskWatch (e : Event) : Bool :=
  match e with
  | .deskWatch => true
  | _ => false

/-! Helper lemmas about log emission, shared between claims. -/

theorem emit_mem_printed (s : LogSink) (m : String) : Event.printed m ∈ emit s m := by
  cases s <;> simp [emit]

theorem emit_countP_isDeskMoveTo (s : LogSink) (m : String) :
    (emit s m).countP isDeskMoveTo = 0 := by
  cases s <;> simp [emit, isDeskMoveTo]

theorem emit_countP_isDeskWatch (s : LogSink) (m : String) :
    (emit s m).countP isDeskWatch = 0 := by
  cases s <;> simp [emit, isDeskWatch]

/-- `setattrC` never touches the log sink: no descriptor key is routed to
the `log` field of the embedding. -/
theorem setattrC_log (c : Config) (k : String) (v : Value) :
    (setattrC c k v).log = c.log := by
  unfold setattrC
  cases fieldOfKey k <;> rfl

/-- Applying a whole descriptor preserves the installed log sink. -/
theorem applyForwardedConfig_log (d : Descriptor) (c : Config) :
    (applyForwardedConfig d c).log = c.log := by
  induction d generalizing c with
  | nil => rfl
  | cons kv rest ih =>
      simp only [applyForwardedConfig, List.foldl_cons] at ih ⊢
      rw [ih, setattrC_log]

/-! Claim theorems. -/

/-- Claim C1.  The claim states that the forwarding servers let only the
Configuration fields command, move-to target and quiet change, leaving
every other field as it was.  The code violates it: both handlers apply
every key of the inbound descriptor with `setattr` (the source's own
`TODO: Check these server side.` comments flag the missing check), so
the disallowed key "disconnecting" overwrites that field through either
server variant. -/
theorem c1_server_applies_disallowed_key :
    cfg0.disconnecting = false
    ∧ "disconnecting" ∉ ALLOWED_KEYS
    ∧ (run_tcp_forwarded_command cfg0 deskEnv0
        [("disconnecting", .vBool true)]).1.disconnecting = true
    ∧ (run_forwarded_command cfg0 deskEnv0
        { wsId := 0, messages := [[("disconnecting", .vBool true)]] }).1.disconnecting = true :=
  ⟨rfl, by decide, rfl, rfl⟩

/-- Counterexample to claim C2: the disconnecting flag is not cleared by
the next connection.  Starting from a Configuration whose flag is set
(the state every intentional `disconnect` leaves behind), a successful
`connect` returns with the flag still set, since nothing in `connect`
writes it. -/
theorem c2_counterexample_connect_keeps_flag :
    (connect { cfg0 with disconnecting := true } none).1.disconnecting = true := rfl

/-- Claim C2 (amended).  The disconnecting flag is set strictly before
the transport-level disconnect is requested by
`ConnectionSupervisor.disconnect` (on a connected client the call first
records the flag, and its trace is the flag write followed by the
transport disconnect); `connect`, however, does not clear the flag: it
returns the Configuration with `disconnecting` exactly as it was. -/
theorem c2_flag_set_before_disconnect_and_kept_by_connect :
    ∀ (cfg : Config) (client : Client) (copt : Option Client),
      (client.is_connected = true →
        (disconnect cfg client).2.2 = [Event.setDisconnecting, Event.transportDisconnect] ∧
        (disconnect cfg client).1.disconnecting = true) ∧
      (connect cfg copt).1.disconnecting = cfg.disconnecting := by
  intro cfg client copt
  refine ⟨fun h => ⟨?_, ?_⟩, ?_⟩
  · simp [disconnect, h]
  · simp [disconnect, h]
  · simp [connect]

/-- Witness for the amended claim C2 at a concrete connected client. -/
theorem c2_flag_set_before_disconnect_and_kept_by_connect_witness :
    (disconnect cfg0 { address := "AA", is_connected := true }).2.2
        = [Event.setDisconnecting, Event.transportDisconnect] ∧
    (disconnect cfg0 { address := "AA", is_connected := true }).1.disconnecting = true :=
  (c2_flag_set_before_disconnect_and_kept_by_connect cfg0
    { address := "AA", is_connected := true } none).1 rfl

/-- Claim C3.  A transport-reported link drop triggers no reconnect when
the disconnecting flag is set — in particular after a deliberate
`disconnect` on a connected client the callback does nothing — and
schedules exactly one reconnect task when the flag is not set. -/
theorem c3_reconnect_exactly_when_not_disconnecting :
    ∀ (cfg : Config) (client : Client),
      (cfg.disconnecting = true → disconnect_callback cfg client = []) ∧
      (cfg.disconnecting = false →
        (disconnect_callback cfg client).countP
          (fun e => e == Event.scheduleReconnect) = 1) ∧
      (client.is_connected = true →
        disconnect_callback (disconnect cfg client).1 (disconnect cfg client).2.1 = []) := by
  intro cfg client
  refine ⟨?_, ?_, ?_⟩ <;> intro h <;> simp [disconnect_callback, disconnect, h]

/-- Witness for claim C3 at concrete states on both sides of the flag. -/
theorem c3_reconnect_exactly_when_not_disconnecting_witness :
    disconnect_callback { cfg0 with disconnecting := true }
        { address := "AA", is_connected := false } = [] ∧
    (disconnect_callback cfg0 { address := "AA", is_connected := true }).countP
        (fun e => e == Event.scheduleReconnect) = 1 :=
  ⟨(c3_reconnect_exactly_when_not_disconnecting { cfg0 with disconnecting := true }
      { address := "AA", is_connected := false }).1 rfl,
   (c3_reconnect_exactly_when_not_disconnecting cfg0
      { address := "AA", is_connected := true }).2.1 rfl⟩

/-- Counterexample to claim C4: the log-sink replacement of the
message-bridge handler is not temporary.  Starting from the startup
sink, after the request completes the Configuration still holds the
print-and-forward sink, not the previously installed one. -/
theorem c4_counterexample_sink_not_restored :
    cfg0.log = LogSink.initial ∧
    (run_forwarded_command cfg0 deskEnv0
      { wsId := 7, messages := [[("command", Value.vCmd none)]] }).1.log ≠ cfg0.log := by
  exact ⟨rfl, by decide⟩

/-- Claim C4 (amended).  For every message-bridge request whose
descriptors do not overwrite the log attribute themselves, the handler
installs the print-and-forward sink before running the command: the
command runs under the sink that both prints locally and forwards each
message as a text frame to the caller, and the exchange ends with the
one-time-unit flush wait and the session close.  The replacement is
permanent, not temporary: after the request completes the forwarding
sink is still the installed one; the previous sink is not restored. -/
theorem c4_forwarding_sink_installed_and_kept :
    ∀ (cfg : Config) (env : DeskEnv) (req : WsRequest),
      req.messages.all (fun d => !(d.any (fun kv => kv.1 = "log"))) = true →
      (run_forwarded_command cfg env req).1.log = LogSink.wsForwarding req.wsId ∧
      (∀ m, emit (LogSink.wsForwarding req.wsId) m
          = [Event.printed m, Event.wsSendText req.wsId m]) ∧
      (∀ d rest, req.messages = d :: rest →
        (run_forwarded_command cfg env req).2
          = [Event.printed "Received command"]
              ++ run_command
                  (applyForwardedConfig d { cfg with log := LogSink.wsForwarding req.wsId }) env
              ++ [Event.sleepOne, Event.wsClose] ∧
        (applyForwardedConfig d
          { cfg with log := LogSink.wsForwarding req.wsId }).log
            = LogSink.wsForwarding req.wsId) := by
  intro cfg env req hnolog
  refine ⟨?_, fun m => rfl, ?_⟩
  · cases hmsg : req.messages with
    | nil => simp [run_forwarded_command, hmsg]
    | cons d rest => simp [run_forwarded_command, hmsg, applyForwardedConfig_log]
  · intro d rest hmsg
    refine ⟨?_, applyForwardedConfig_log d _⟩
    simp [run_forwarded_command, hmsg]

/-- Witness for the amended claim C4 at a concrete request. -/
theorem c4_forwarding_sink_installed_and_kept_witness :
    (run_forwarded_command cfg0 deskEnv0
        { wsId := 7, messages := [[("command", Value.vCmd none)]] }).1.log
      = LogSink.wsForwarding 7 :=
  (c4_forwarding_sink_installed_and_kept cfg0 deskEnv0
    { wsId := 7, messages := [[("command", Value.vCmd none)]] } (by decide)).1

/-- Claim C5.  When the selected command is move-to and the target
string resolves (favourite name or numeric literal) to a height whose
value equals the just-read current height, `run_command` logs the no-op
warning and returns without invoking the Device collaborator's move-to
operation: the trace holds the warning and no device-write event. -/
theorem c5_move_to_current_height_is_noop :
    ∀ (cfg : Config) (env : DeskEnv) (t : Height),
      cfg.command = some .move_to →
      resolveTarget cfg = some t →
      t.value = env.initial.1.value →
      (run_command cfg env).countP isDeskMoveTo = 0 ∧
      Event.printed "Nothing to do - already at specified height" ∈ run_command cfg env := by
  intro cfg env t hcmd hres hval
  unfold run_command
  rw [hcmd]
  unfold resolveTarget at hres
  cases hfav : favGet cfg.favourites cfg.move_to with
  | some v =>
      rw [hfav] at hres
      simp at hres
      subst hres
      simp [Height.make] at hval
      simp [hfav, Height.make, hval, List.countP_append, emit_countP_isDeskMoveTo,
        List.countP_cons, isDeskMoveTo, emit_mem_printed]
  | none =>
      rw [hfav] at hres
      by_cases hnum : isnumeric (strOfValue cfg.move_to)
      · rw [if_pos hnum] at hres
        simp at hres
        subst hres
        simp [Height.make] at hval
        simp [hfav, hnum, Height.make, hval, List.countP_append, emit_countP_isDeskMoveTo,
          List.countP_cons, isDeskMoveTo, emit_mem_printed]
      · rw [if_neg hnum] at hres
        simp at hres

/-- Witness for claim C5: moving to the favourite "standing" (1100)
while the desk already reads 1100. -/
theorem c5_move_to_current_height_is_noop_witness :
    (run_command { cfg0 with command := some .move_to, move_to := .vStr "standing" }
        { initial := ({ value := 1100 }, 0), final := ({ value := 1100 }, 0) }).countP
        isDeskMoveTo = 0 ∧
    Event.printed "Nothing to do - already at specified height"
      ∈ run_command { cfg0 with command := some .move_to, move_to := .vStr "standing" }
          { initial := ({ value := 1100 }, 0), final := ({ value := 1100 }, 0) } :=
  c5_move_to_current_height_is_noop
    { cfg0 with command := some .move_to, move_to := .vStr "standing" }
    { initial := ({ value := 1100 }, 0), final := ({ value := 1100 }, 0) }
    { value := 1100 } rfl rfl rfl

/-- Claim C6.  When the selected command is move-to and the target
string is neither a known favourite name nor numeric, `run_command`
logs the user-facing error and returns without contacting the device:
no device-write event and no watch-subscription event appear in the
trace; and the failure does not escalate — a session that reaches the
command with a working connection still exits with status 0. -/
theorem c6_invalid_target_local_error_only :
    ∀ (cfg : Config) (env : DeskEnv),
      cfg.command = some .move_to →
      resolveTarget cfg = none →
      ((run_command cfg env).countP isDeskMoveTo = 0 ∧
       (run_command cfg env).countP isDeskWatch = 0 ∧
       Event.printed ("Not a valid height or favourite position: " ++ strOfValue cfg.move_to)
         ∈ run_command cfg env) ∧
      (∀ env2 : ManageEnv, cfg.forward = false → env2.connectRes = .ok →
        env2.phase = .completes → (manage cfg env2).1 = 0) := by
  intro cfg env hcmd hres
  unfold resolveTarget at hres
  cases hfav : favGet cfg.favourites cfg.move_to with
  | some v => rw [hfav] at hres; simp at hres
  | none =>
      rw [hfav] at hres
      by_cases hnum : isnumeric (strOfValue cfg.move_to)
      · rw [if_pos hnum] at hres; simp at hres
      · constructor
        · unfold run_command
          rw [hcmd]
          simp [hfav, hnum, List.countP_append, emit_countP_isDeskMoveTo,
            emit_countP_isDeskWatch, List.countP_cons, isDeskMoveTo, isDeskWatch,
            emit_mem_printed]
        · intro env2 hfw hconn hphase
          simp [manage, hfw, hcmd, hconn, hphase]

/-- Witness for claim C6: an unresolvable target on a session whose
connection succeeds. -/
theorem c6_invalid_target_local_error_only_witness :
    ((run_command { cfg0 with command := some .move_to, move_to := .vStr "way up" }
        deskEnv0).countP isDeskMoveTo = 0 ∧
     (run_command { cfg0 with command := some .move_to, move_to := .vStr "way up" }
        deskEnv0).countP isDeskWatch = 0 ∧
     Event.printed ("Not a valid height or favourite position: "
         ++ strOfValue (Value.vStr "way up"))
       ∈ run_command { cfg0 with command := some .move_to, move_to := .vStr "way up" }
           deskEnv0) ∧
    (manage { cfg0 with command := some .move_to, move_to := .vStr "way up" } env0).1 = 0 :=
  ⟨(c6_invalid_target_local_error_only
      { cfg0 with command := some .move_to, move_to := .vStr "way up" }
      deskEnv0 rfl rfl).1,
   (c6_invalid_target_local_error_only
      { cfg0 with command := some .move_to, move_to := .vStr "way up" }
      deskEnv0 rfl rfl).2 env0 rfl rfl rfl⟩

/-- Claim C7.  `manage` classifies every session outcome: a `BleakError`
(the not-found case included) and a connect timeout yield exit status 1,
as do an `OSError` and any other uncaught exception anywhere in the
session; completing via the forwarding client, via scan, or via a
completed local command yields exit status 0. -/
theorem c7_exit_status_classification :
    ∀ (cfg : Config) (env : ManageEnv),
      (cfg.forward = false → cfg.command ≠ some .scan_adapter →
        ∀ m, env.connectRes = .bleakError m → (manage cfg env).1 = 1) ∧
      (cfg.forward = false → cfg.command ≠ some .scan_adapter →
        env.connectRes = .timeout → (manage cfg env).1 = 1) ∧
      (∀ part m, env.phase = .osError part m → (manage cfg env).1 = 1) ∧
      (∀ part m, env.phase = .exn part m → (manage cfg env).1 = 1) ∧
      (cfg.forward = true → env.phase = .completes → (manage cfg env).1 = 0) ∧
      (cfg.forward = false → cfg.command = some .scan_adapter → env.phase = .completes →
        (manage cfg env).1 = 0) ∧
      (cfg.forward = false → cfg.command ≠ some .scan_adapter →
        cfg.command ≠ some .server → cfg.command ≠ some .tcp_server →
        env.connectRes = .ok → env.phase = .completes → (manage cfg env).1 = 0) := by
  intro cfg env
  refine ⟨?_, ?_, ?_, ?_, ?_, ?_, ?_⟩
  · intro hfw hsc m hconn
    simp [manage, hfw, hsc, hconn]
  · intro hfw hsc hconn
    simp [manage, hfw, hsc, hconn]
  · intro part m hph
    by_cases hfw : cfg.forward <;>
      by_cases hsc : cfg.command = some .scan_adapter <;>
        cases hconn : env.connectRes <;>
          simp [manage, hfw, hsc, hconn, hph]
  · intro part m hph
    by_cases hfw : cfg.forward <;>
      by_cases hsc : cfg.command = some .scan_adapter <;>
        cases hconn : env.connectRes <;>
          simp [manage, hfw, hsc, hconn, hph]
  · intro hfw hph
    simp [manage, hfw, hph]
  · intro hfw hsc hph
    simp [manage, hfw, hsc, hph]
  · intro hfw hsc _ _ hconn hph
    simp [manage, hfw, hsc, hconn, hph]

/-- Witness for claim C7: a connect timeout exits 1, an uncaught
exception exits 1, a completed local command exits 0. -/
theorem c7_exit_status_classification_witness :
    (manage cfg0 { env0 with connectRes := .timeout }).1 = 1 ∧
    (manage cfg0 { env0 with phase := .exn [] "boom" }).1 = 1 ∧
    (manage cfg0 env0).1 = 0 :=
  ⟨(c7_exit_status_classification cfg0 { env0 with connectRes := .timeout }).2.1
      rfl (by decide) rfl,
   ((c7_exit_status_classification cfg0 { env0 with phase := .exn [] "boom" }).2.2.2.1
      [] "boom" rfl),
   (c7_exit_status_classification cfg0 env0).2.2.2.2.2.2
      rfl (by decide) (by decide) (by decide) rfl rfl⟩

/-- Claim C8.  Whenever the session needed and obtained a connection
(neither the forwarding-client nor the scan path, and connect
succeeded), the cleanup block runs at the very end of the session trace
no matter how the body ended — completing, `OSError`, or any uncaught
exception — and it issues the device stop immediately before the
`ConnectionSupervisor.disconnect` call. -/
theorem c8_cleanup_stop_then_disconnect :
    ∀ (cfg : Config) (env : ManageEnv),
      cfg.forward = false → cfg.command ≠ some .scan_adapter → env.connectRes = .ok →
      ∃ pre,
        (manage cfg env).2
          = pre ++ [Event.printed "\rDisconnecting\r", Event.deskStop, Event.disconnectCall]
              ++ (disconnect cfg
                    { address := cfg.mac_address,
                      is_connected := env.clientConnectedAtCleanup }).2.2
              ++ [Event.printed "Disconnected         "] := by
  intro cfg env hfw hsc hconn
  cases hph : env.phase with
  | completes =>
      refine ⟨(connect cfg none).2.2 ++ dispatchTrace cfg env, ?_⟩
      simp [manage, hfw, hsc, hconn, hph, cleanupTrace, connect]
  | osError part m =>
      refine ⟨(connect cfg none).2.2 ++ part ++ [.printed m], ?_⟩
      simp [manage, hfw, hsc, hconn, hph, cleanupTrace, connect]
  | exn part m =>
      refine ⟨(connect cfg none).2.2 ++ part
        ++ [.printed "\nSomething unexpected went wrong:", .printed (format_exc m)], ?_⟩
      simp [manage, hfw, hsc, hconn, hph, cleanupTrace, connect]

/-- Witness for claim C8 on a session ending in an uncaught exception. -/
theorem c8_cleanup_stop_then_disconnect_witness :
    ∃ pre,
      (manage cfg0 { env0 with phase := .exn [] "boom" }).2
        = pre ++ [Event.printed "\rDisconnecting\r", Event.deskStop, Event.disconnectCall]
            ++ (disconnect cfg0
                  { address := cfg0.mac_address, is_connected := true }).2.2
            ++ [Event.printed "Disconnected         "] :=
  c8_cleanup_stop_then_disconnect cfg0 { env0 with phase := .exn [] "boom" }
    rfl (by decide) rfl

/-- Claim C9.  The forwarding client refuses locally every command
outside the remote-invocable subset: its whole trace is the one error
print, and in particular no connection to the server is opened.  For
commands inside the subset it opens the session and sends exactly the
descriptor restricted to the allow-listed fields. -/
theorem c9_client_refuses_unknown_commands :
    ∀ (cfg : Config) (incoming : List String),
      (cfg.command ∉ ALLOWED_COMMANDS →
        forward_command cfg incoming
          = [.printed "Command must be one of [None, Commands.move_to, Commands.watch]"] ∧
        Event.wsConnect ∉ forward_command cfg incoming) ∧
      (cfg.command ∈ ALLOWED_COMMANDS →
        forward_command cfg incoming
          = [.wsConnect,
             .wsSend [("command", .vCmd cfg.command), ("move_to", cfg.move_to),
               ("quiet", .vBool cfg.quiet)]]
            ++ incoming.map (fun s => .printed s) ++ [.wsClose]) := by
  intro cfg incoming
  constructor
  · intro h
    constructor
    · simp [forward_command, h]
    · simp [forward_command, h]
  · intro h
    simp [forward_command, h]
    rfl

/-- Witness for claim C9: `scan_adapter` is refused without a
connection; the status command (`None`) is forwarded with only the
allow-listed fields. -/
theorem c9_client_refuses_unknown_commands_witness :
    (forward_command { cfg0 with command := some .scan_adapter } []
        = [.printed "Command must be one of [None, Commands.move_to, Commands.watch]"] ∧
      Event.wsConnect ∉ forward_command { cfg0 with command := some .scan_adapter } []) ∧
    forward_command cfg0 []
      = [.wsConnect,
         .wsSend [("command", .vCmd cfg0.command), ("move_to", cfg0.move_to),
           ("quiet", .vBool cfg0.quiet)]]
          ++ List.map (fun s => .printed s) [] ++ [.wsClose] :=
  ⟨(c9_client_refuses_unknown_commands { cfg0 with command := some .scan_adapter } []).1
      (by decide),
   (c9_client_refuses_unknown_commands cfg0 []).2 (by decide)⟩

/-- A discovered device whose address differs from the configured one. -/
def strayDevice : BleDevice :=
  { address := "11:22:33:44:55:66", name := "other desk" }

/-- Claim C10.  The claim states that scan filters by the configured
address; the code does not: `scan`'s own docstring promises to return
the device with the configured address, but the body prints and returns
every discovered device unfiltered.  With an address configured and one
non-matching device discovered, the device is still printed and
returned, and the count line reports it. -/
theorem c10_scan_returns_unfiltered_devices :
    cfg0.mac_address = "AA:BB:CC:DD:EE:FF"
    ∧ strayDevice.address ≠ cfg0.mac_address
    ∧ (scan cfg0 [strayDevice]).1 = [strayDevice]
    ∧ Event.printed (deviceStr strayDevice) ∈ (scan cfg0 [strayDevice]).2
    ∧ Event.printed "Found 1 devices using hci0" ∈ (scan cfg0 [strayDevice]).2 := by
  refine ⟨rfl, by decide, rfl, by decide, by decide⟩

end LinakController
